import Mathlib

/-!
# Verification of the two-stage transcription acquisition protocol

Shallow embedding of `src/transcribe_app.py` (and the request handling of
`src/Transcribe.py`): the two transcription attempts
(`transcribe_audio_primary`, `transcribe_audio_alternative`), the
module-level acquisition flow, the upload validator
(`validate_audio_file`), the re-transcription decision keyed on the
uploaded file name, and the chat-turn handler with its history cap.

Network I/O is modelled by passing the provider's behaviour for each
attempt explicitly as a `Transport` value: either an HTTP response
(status, raw body text, and the body's parse result) or a raised
transport exception.  Python `try/except` blocks that swallow the
exception become total functions returning the except-branch value on
the `raises` constructor.  Streamlit display calls (`st.error`,
`st.warning`, `st.info`) are modelled as a list of surfaced `UiMsg`
values, since several claims are about what is surfaced and with which
severity.
-/

/-- Severity of a message surfaced to the user
(`st.error` / `st.warning` / `st.info`). -/
inductive MsgKind where
  | error
  | warning
  | info
deriving DecidableEq, Repr

/-- A message surfaced to the user via the UI framework. -/
structure UiMsg where
  kind : MsgKind
  text : String
deriving DecidableEq, Repr

/-- One alternative inside a Deepgram channel.  The Python code reads
`alternatives[0].get("transcript", "")` (primary) and
`alternatives[0]["transcript"]` (alternative), so the `transcript` key
may be absent. -/
structure DgAlternative where
  transcript : Option String
deriving DecidableEq, Repr

/-- One channel of the Deepgram response body; `alternatives` read with
`.get("alternatives", [])`, so an absent key is the empty list. -/
structure DgChannel where
  alternatives : List DgAlternative
deriving DecidableEq, Repr

/-- The `results` object of the Deepgram response body. -/
structure DgResults where
  channels : List DgChannel
deriving DecidableEq, Repr

/-- Parsed JSON body of a Deepgram response.  The `results` key may be
absent (`result.get("results", {})` in the primary attempt,
`result["results"]` raising `KeyError` in the alternative one). -/
structure DgJson where
  results : Option DgResults
deriving DecidableEq, Repr

/-- An HTTP response as the Python code observes it: `status_code`,
the raw body `text`, and the outcome of `response.json()` (`none`
models a body that makes `.json()` raise). -/
structure Response where
  status : Nat
  text : String
  json : Option DgJson
deriving DecidableEq, Repr

/-- Behaviour of one `requests.post` call: either a response comes back
or the call raises a transport exception carrying a description. -/
inductive Transport where
  | response (r : Response)
  | raises (msg : String)
deriving DecidableEq, Repr

/-- ASCII whitespace as recognised by Python's `str.strip()`
(space, tab, newline, carriage return, vertical tab, form feed).
Unicode whitespace is treated analogously and not modelled. -/
def isPyWhitespace (c : Char) : Bool :=
  c = ' ' || c = '\t' || c = '\n' || c = '\r' || c = '\x0b' || c = '\x0c'

/-- Python's `str.strip()`: drop leading and trailing whitespace. -/
def pyStrip (s : String) : String :=
  ⟨((s.data.dropWhile isPyWhitespace).reverse.dropWhile isPyWhitespace).reverse⟩

/-- Query parameters of the primary attempt
(`transcribe_app.py`, lines 56-62). -/
def primaryParams : List (String × String) :=
  [("detect_language", "true"), ("punctuate", "true"), ("model", "nova-2"),
   ("smart_format", "true"), ("diarize", "false")]

/-- Query parameters of the alternative attempt
(`transcribe_app.py`, lines 110-115). -/
def alternativeParams : List (String × String) :=
  [("detect_language", "true"), ("punctuate", "true"), ("model", "nova-2"),
   ("smart_format", "true")]

/-- Network timeout (seconds) of the primary attempt (line 73). -/
def primaryTimeout : Nat := 120

/-- Network timeout (seconds) of the alternative attempt (line 123). -/
def alternativeTimeout : Nat := 120

/-- `transcribe_audio_primary` (`transcribe_app.py`, lines 47-99),
as a function of the provider's behaviour.  Every failure path —
non-200 status, missing/empty `channels`, empty `alternatives`,
whitespace-only transcript, or any raised exception (the `except`
clause) — returns `none`; the surrounding `try` makes the function
total and silent. -/
def transcribe_audio_primary : Transport → Option String
  | .raises _ => none
  | .response r =>
    if r.status ≠ 200 then none
    else
      match r.json with
      | none => none
      | some j =>
        match j.results with
        | none => none
        | some res =>
          match res.channels with
          | [] => none
          | c :: _ =>
            match c.alternatives with
            | [] => none
            | a :: _ =>
              let transcript := a.transcript.getD ""
              if pyStrip transcript = "" then none
              else some (pyStrip transcript)

/-- Placeholder for `str(e)` of the exception raised when
`response.json()` fails inside the alternative attempt; the runtime
message text is not determined by the source. -/
def jsonErrorDesc : String := "Expecting value"

/-- Placeholder for `str(e)` of the `KeyError`/`IndexError` raised by
the strict indexing `result["results"]["channels"][0]["alternatives"][0]["transcript"]`. -/
def keyErrorDesc : String := "KeyError"

/-- The strict nested lookup of the alternative attempt (line 131):
`none` means one of the keys/indices is missing, which raises and is
caught by the `except` clause. -/
def dgStrictExtract (j : DgJson) : Option String :=
  match j.results with
  | none => none
  | some res =>
    match res.channels with
    | [] => none
    | c :: _ =>
      match c.alternatives with
      | [] => none
      | a :: _ => a.transcript

/-- `transcribe_audio_alternative` (`transcribe_app.py`, lines 101-141):
returns the transcript option together with the messages surfaced via
`st.error` / `st.warning`. -/
def transcribe_audio_alternative : Transport → Option String × List UiMsg
  | .raises m => (none, [⟨.error, "❌ Transcription error: " ++ m⟩])
  | .response r =>
    if r.status ≠ 200 then
      (none, [⟨.error, "❌ Transcription failed - API Error "
                ++ toString r.status ++ ": " ++ r.text⟩])
    else
      match r.json with
      | none => (none, [⟨.error, "❌ Transcription error: " ++ jsonErrorDesc⟩])
      | some j =>
        match dgStrictExtract j with
        | none => (none, [⟨.error, "❌ Transcription error: " ++ keyErrorDesc⟩])
        | some transcript =>
          if pyStrip transcript = "" then
            (none, [⟨.warning,
              "⚠️ Transcription is empty. Audio might be too quiet or unclear."⟩])
          else (some (pyStrip transcript), [])

/-- Result of the module-level transcription flow: the transcript that
ends up available (if any), whether the alternative attempt was
invoked, and the messages surfaced during the flow (from the
alternative attempt and from the module-level failure handler). -/
structure FlowResult where
  transcript : Option String
  attemptBInvoked : Bool
  messages : List UiMsg
deriving DecidableEq, Repr

/-- The module-level `st.error` shown when both attempts return `None`
(`transcribe_app.py`, line 236). -/
def bothFailedMsg : UiMsg :=
  ⟨.error, "Unable to transcribe the audio file. Please check:"⟩

/-- Module-level transcription flow (`transcribe_app.py`, lines
202-240): try the primary attempt; only if it returned `None`, invoke
the alternative attempt; if the final transcript is still `None`,
surface the module-level failure error. -/
def transcriptionFlow (ta tb : Transport) : FlowResult :=
  match transcribe_audio_primary ta with
  | some t => { transcript := some t, attemptBInvoked := false, messages := [] }
  | none =>
    match transcribe_audio_alternative tb with
    | (some t, msgs) =>
        { transcript := some t, attemptBInvoked := true, messages := msgs }
    | (none, msgs) =>
        { transcript := none, attemptBInvoked := true,
          messages := msgs ++ [bothFailedMsg] }

/-- An uploaded file as the code observes it: `uploaded_file.name`,
`uploaded_file.getvalue()` (the byte payload, modelled as a list of
byte values) and `uploaded_file.type` (the declared MIME type, which
may be `None`). -/
structure UploadedFile where
  name : String
  content : List Nat
  type : Option String
deriving DecidableEq, Repr

/-- `allowed_types` (`transcribe_app.py`, line 154). -/
def allowed_types : List String :=
  ["audio/wav", "audio/mpeg", "audio/mp3", "audio/m4a", "audio/flac", "audio/ogg"]

/-- `allowed_extensions` (`transcribe_app.py`, line 156). -/
def allowed_extensions : List String :=
  [".wav", ".mp3", ".m4a", ".flac", ".ogg"]

/-- The extension component of `os.path.splitext` for a plain file name
(uploader names carry no directory separators): the suffix starting at
the rightmost dot, unless every character before that dot is itself a
dot (then the extension is empty, e.g. `".bashrc"`). -/
def splitextExt (s : String) : String :=
  let cs := s.data
  match cs.reverse.findIdx? (fun c => c = '.') with
  | none => ""
  | some i =>
    let sepIndex := cs.length - 1 - i
    if (cs.take sepIndex).all (fun c => c = '.') then ""
    else ⟨cs.drop sepIndex⟩

/-- ASCII lowering of one character, as `str.lower()` acts on the
ASCII range (extensions are ASCII; Unicode lowering is not modelled). -/
def pyToLower (c : Char) : Char :=
  if 'A' ≤ c ∧ c ≤ 'Z' then Char.ofNat (c.toNat + 32) else c

/-- Python's `str.lower()` on ASCII strings. -/
def pyLower (s : String) : String := ⟨s.data.map pyToLower⟩

/-- `audio_file.type not in allowed_types` is false exactly when the
declared type is present and listed (`None not in allowed_types` is
true in Python). -/
def typeAllowed : Option String → Bool
  | some t => allowed_types.contains t
  | none => false

/-- `validate_audio_file` (`transcribe_app.py`, lines 143-161), reduced
to its accept/reject decision (the human-readable message strings,
which format the size as a float, are not modelled).  The Python size
test `len(v) / (1024 * 1024) > 25` on a float is exact for all
realistic sizes (division by a power of two is exact in binary
floating point below 2^53), so it is embedded as
`len > 25 * 1024 * 1024`. -/
def validate_audio_file (f : UploadedFile) : Bool :=
  if f.content.length > 25 * 1024 * 1024 then false
  else
    let file_extension := pyLower (splitextExt f.name)
    if !typeAllowed f.type && !allowed_extensions.contains file_extension then false
    else true

/-- The pieces of `st.session_state` the transcription flow reads and
writes: `last_uploaded_file` and `transcript` (each possibly absent). -/
structure SessionState where
  lastUploadedFile : Option String
  transcript : Option String
deriving DecidableEq, Repr

/-- `file_changed` (`transcribe_app.py`, line 186):
`st.session_state.get("last_uploaded_file") != uploaded_file.name`. -/
def file_changed (s : SessionState) (f : UploadedFile) : Bool :=
  s.lastUploadedFile ≠ some f.name

/-- `needs_transcription` (`transcribe_app.py`, line 187):
`"transcript" not in st.session_state or file_changed`. -/
def needs_transcription (s : SessionState) (f : UploadedFile) : Bool :=
  s.transcript.isNone || file_changed s f

/-- Outcome of one run of the upload handler: the resulting session
state, whether a transcription attempt was made, and whether the file
was rejected by validation (`st.stop()` before any transcription). -/
structure UploadOutcome where
  state : SessionState
  transcriptionAttempted : Bool
  rejected : Bool
deriving DecidableEq, Repr

/-- Module-level upload handling (`transcribe_app.py`, lines 175-218):
validate first (`st.stop()` on rejection, so transcription is never
reached); then transcribe only when `needs_transcription`; the session
state is updated only when a transcript was obtained. -/
def handle_upload (s : SessionState) (f : UploadedFile) (ta tb : Transport) :
    UploadOutcome :=
  if !validate_audio_file f then
    { state := s, transcriptionAttempted := false, rejected := true }
  else if needs_transcription s f then
    match (transcriptionFlow ta tb).transcript with
    | some t =>
        { state := { lastUploadedFile := some f.name, transcript := some t },
          transcriptionAttempted := true, rejected := false }
    | none =>
        { state := s, transcriptionAttempted := true, rejected := false }
  else
    { state := s, transcriptionAttempted := false, rejected := false }

/-- Chat messages (`SystemMessage` / `HumanMessage` / `AIMessage`). -/
inductive ChatMsg where
  | system (content : String)
  | human (content : String)
  | ai (content : String)
deriving DecidableEq, Repr

/-- History cap before invoking the language model
(`transcribe_app.py`, lines 305-311): start from `history[:1]`; when
the history is longer than 5 messages extend with `history[-4:]`
(Python `h[-4:]` is `drop (length - 4)` — truncated subtraction also
matches Python's clamping for short lists); otherwise use the full
history. -/
def limited_history (h : List ChatMsg) : List ChatMsg :=
  if h.length > 5 then h.take 1 ++ h.drop (h.length - 4) else h

/-- One chat turn (`transcribe_app.py`, lines 283-346): append the user
message, invoke the language model on the capped history, append the
assistant reply on success; on an exception, pop the last history
entry if it is a `HumanMessage`.  The model call is passed in as a
function returning `Except` (an exception or the reply content);
returns the new history and the reply shown (if any). -/
def chat_turn (history : List ChatMsg) (prompt : String)
    (llm : List ChatMsg → Except String String) :
    List ChatMsg × Option String :=
  let h1 := history ++ [ChatMsg.human prompt]
  match llm (limited_history h1) with
  | .ok resp => (h1 ++ [ChatMsg.ai resp], some resp)
  | .error _ =>
    match h1.getLast? with
    | some (ChatMsg.human _) => (h1.dropLast, none)
    | _ => (h1, none)

/-- A 200 response whose body parses to
`{results: {channels: [{alternatives: [{transcript: t}]}]}}` with raw
body text `text`: the canonical successful provider response shape. -/
def dgResp (status : Nat) (text t : String) : Response :=
  ⟨status, text, some ⟨some ⟨[⟨[⟨some t⟩]⟩]⟩⟩⟩

/-- Authorization header of the primary attempt (lines 51-53). -/
def primaryHeaders (key : String) : List (String × String) :=
  [("Authorization", "Token " ++ key)]

/-- Headers of the alternative attempt (lines 105-108): authorization
plus an explicit `Content-Type` defaulting to `audio/mpeg`. -/
def alternativeHeaders (key : String) (mediaType : Option String) :
    List (String × String) :=
  [("Authorization", "Token " ++ key),
   ("Content-Type", mediaType.getD "audio/mpeg")]

/-! ## Helper lemmas -/

/-- A whitespace-only string strips to the empty string. -/
theorem pyStrip_eq_empty_of_ws (s : String) (h : ∀ c ∈ s.data, isPyWhitespace c) :
    pyStrip s = "" := by
  unfold pyStrip
  have hd : s.data.dropWhile isPyWhitespace = [] :=
    List.dropWhile_eq_nil_iff.mpr h
  rw [hd]
  rfl

/-- A successful primary attempt yields a non-empty transcript. -/
theorem primary_some_ne_empty (ta : Transport) (t : String)
    (h : transcribe_audio_primary ta = some t) : t ≠ "" := by
  cases ta with
  | raises m => exact Option.noConfusion h
  | response r =>
    unfold transcribe_audio_primary at h
    repeat' split at h
    all_goals simp_all
    exact fun he => h.1 (h.2.trans he)

/-- The flow returns the primary result untouched when it succeeds. -/
theorem flow_of_primary_some (ta tb : Transport) (t : String)
    (h : transcribe_audio_primary ta = some t) :
    transcriptionFlow ta tb = ⟨some t, false, []⟩ := by
  simp [transcriptionFlow, h]

/-- The flow depends only on the alternative attempt once the primary
attempt soft-fails. -/
theorem flow_congr_of_primary_none (ta ta' tb : Transport)
    (h : transcribe_audio_primary ta = none)
    (h' : transcribe_audio_primary ta' = none) :
    transcriptionFlow ta tb = transcriptionFlow ta' tb := by
  unfold transcriptionFlow
  rw [h, h']

/-- Any non-200 status or unparsable body makes the primary attempt
soft-fail. -/
theorem primary_response_none (r : Response)
    (h : r.status ≠ 200 ∨ r.json = none) :
    transcribe_audio_primary (.response r) = none := by
  rcases h with h | h
  · simp [transcribe_audio_primary, h]
  · simp only [transcribe_audio_primary]
    rw [h]
    by_cases hs : r.status = 200 <;> simp [hs]

/-! ## Claims -/

/-- C1: whenever the primary attempt yields a (non-empty, trimmed)
transcript, the flow returns exactly that text with no messages and
the alternative attempt is not invoked; the alternative attempt is
invoked only when the primary attempt soft-failed (`None`). -/
theorem claim_C1 (ta tb : Transport) :
    (∀ t, transcribe_audio_primary ta = some t →
      t ≠ "" ∧ transcriptionFlow ta tb = ⟨some t, false, []⟩) ∧
    ((transcriptionFlow ta tb).attemptBInvoked = true →
      transcribe_audio_primary ta = none) := by
  constructor
  · intro t h
    exact ⟨primary_some_ne_empty ta t h, flow_of_primary_some ta tb t h⟩
  · intro hB
    cases hp : transcribe_audio_primary ta with
    | none => rfl
    | some t =>
      rw [flow_of_primary_some ta tb t hp] at hB
      exact absurd hB (by simp)

/-- Witness for C1 at a concrete successful primary response. -/
theorem claim_C1_witness :
    transcribe_audio_primary (.response (dgResp 200 "raw" " hi ")) = some "hi" ∧
    "hi" ≠ "" ∧
    transcriptionFlow (.response (dgResp 200 "raw" " hi ")) (.raises "boom") =
      ⟨some "hi", false, []⟩ := by
  have h : transcribe_audio_primary (.response (dgResp 200 "raw" " hi ")) =
      some "hi" := by decide
  have h2 := (claim_C1 (.response (dgResp 200 "raw" " hi "))
    (.raises "boom")).1 "hi" h
  exact ⟨h, h2.1, h2.2⟩

/-- C2: a non-200 status or unparsable body in the primary attempt (as
well as any raised exception) makes it return `None`; the flow then
proceeds to the alternative attempt and its outcome is identical to
that of a run whose primary attempt merely raised — so nothing of the
primary attempt's status or error reaches the final result. -/
theorem claim_C2 (r : Response) (m : String) (tb : Transport)
    (h : r.status ≠ 200 ∨ r.json = none) :
    transcribe_audio_primary (.response r) = none ∧
    transcribe_audio_primary (.raises m) = none ∧
    transcriptionFlow (.response r) tb = transcriptionFlow (.raises m) tb ∧
    (transcriptionFlow (.response r) tb).attemptBInvoked = true := by
  have h1 := primary_response_none r h
  have h2 : transcribe_audio_primary (.raises m) = none := rfl
  refine ⟨h1, h2, flow_congr_of_primary_none _ _ tb h1 h2, ?_⟩
  unfold transcriptionFlow
  rw [h1]
  rcases halt : transcribe_audio_alternative tb with ⟨o, msgs⟩
  cases o <;> simp

/-- Witness for C2 at a concrete 500 response with unparsable body. -/
theorem claim_C2_witness :
    ((⟨500, "oops", none⟩ : Response).status ≠ 200 ∨
      (⟨500, "oops", none⟩ : Response).json = none) ∧
    transcribe_audio_primary (.response ⟨500, "oops", none⟩) = none ∧
    transcriptionFlow (.response ⟨500, "oops", none⟩) (.raises "reset") =
      transcriptionFlow (.raises "conn") (.raises "reset") ∧
    (transcriptionFlow (.response ⟨500, "oops", none⟩)
      (.raises "reset")).attemptBInvoked = true := by
  have h := claim_C2 ⟨500, "oops", none⟩ "conn" (.raises "reset")
    (Or.inl (by decide))
  exact ⟨Or.inl (by decide), h.1, h.2.2.1, h.2.2.2⟩

/-- C3: a non-success status in the alternative attempt is surfaced as
an error message carrying the status code and the raw body text
verbatim (no exception escapes: the function totally returns `None`
plus that message), and after a soft-failed primary attempt the flow's
surfaced messages contain exactly that error. -/
theorem claim_C3 (r : Response) (ta : Transport) (h : r.status ≠ 200) :
    transcribe_audio_alternative (.response r) =
      (none, [⟨.error, "❌ Transcription failed - API Error "
        ++ toString r.status ++ ": " ++ r.text⟩]) ∧
    (transcribe_audio_primary ta = none →
      (transcriptionFlow ta (.response r)).transcript = none ∧
      (⟨MsgKind.error, "❌ Transcription failed - API Error "
        ++ toString r.status ++ ": " ++ r.text⟩ : UiMsg) ∈
        (transcriptionFlow ta (.response r)).messages) := by
  have halt : transcribe_audio_alternative (.response r) =
      (none, [⟨.error, "❌ Transcription failed - API Error "
        ++ toString r.status ++ ": " ++ r.text⟩]) := by
    simp [transcribe_audio_alternative, h]
  refine ⟨halt, fun hp => ?_⟩
  unfold transcriptionFlow
  rw [hp, halt]
  simp

/-- Witness for C3 at a concrete 401 response, body preserved verbatim. -/
theorem claim_C3_witness :
    transcribe_audio_alternative (.response ⟨401, "Unauthorized token", none⟩) =
      (none, [⟨.error,
        "❌ Transcription failed - API Error 401: Unauthorized token"⟩]) ∧
    (⟨MsgKind.error, "❌ Transcription failed - API Error 401: Unauthorized token"⟩ : UiMsg) ∈
        (transcriptionFlow (.raises "conn")
          (.response ⟨401, "Unauthorized token", none⟩)).messages := by
  have h := claim_C3 ⟨401, "Unauthorized token", none⟩ (.raises "conn")
    (by decide)
  have hs : ("❌ Transcription failed - API Error " ++ toString (401 : Nat)
      ++ ": " ++ "Unauthorized token") =
      "❌ Transcription failed - API Error 401: Unauthorized token" := by decide
  refine ⟨?_, ?_⟩
  · have h1 := h.1
    rw [hs] at h1
    exact h1
  · have h2 := (h.2 rfl).2
    rw [hs] at h2
    exact h2

/-- C4 counterexample: when both attempts return 200 with an empty
transcript, the flow's returned transcript is the same `None` as in a
provider-failure run, and the module-level handler surfaces the
generic transcription-failure *error* — the overall outcome is not a
distinct Empty variant and is reported as a failure. -/
theorem claim_C4_counterexample :
    transcriptionFlow (.response (dgResp 200 "body" ""))
        (.response (dgResp 200 "body" "")) =
      ⟨none, true,
        [⟨.warning, "⚠️ Transcription is empty. Audio might be too quiet or unclear."⟩,
         bothFailedMsg]⟩ ∧
    bothFailedMsg.kind = MsgKind.error ∧
    (transcriptionFlow (.response (dgResp 200 "body" ""))
        (.response (dgResp 200 "body" ""))).transcript =
      (transcriptionFlow (.response (dgResp 200 "body" ""))
        (.response ⟨500, "err", none⟩)).transcript := by
  exact ⟨rfl, rfl, rfl⟩

/-- C4 (amended): when both attempts yield whitespace-only transcript
text, the alternative attempt surfaces the distinguishing
no-speech *warning*, but the flow's returned transcript is `None`
(indistinguishable from the failure case) and the module-level handler
additionally reports the generic transcription-failure error. -/
theorem claim_C4 (x y t₁ t₂ : String)
    (h₁ : ∀ c ∈ t₁.data, isPyWhitespace c)
    (h₂ : ∀ c ∈ t₂.data, isPyWhitespace c) :
    transcriptionFlow (.response (dgResp 200 x t₁))
        (.response (dgResp 200 y t₂)) =
      ⟨none, true,
        [⟨.warning, "⚠️ Transcription is empty. Audio might be too quiet or unclear."⟩,
         bothFailedMsg]⟩ := by
  have e₁ := pyStrip_eq_empty_of_ws t₁ h₁
  have e₂ := pyStrip_eq_empty_of_ws t₂ h₂
  have hp : transcribe_audio_primary (.response (dgResp 200 x t₁)) = none := by
    simp [transcribe_audio_primary, dgResp, e₁]
  have ha : transcribe_audio_alternative (.response (dgResp 200 y t₂)) =
      (none, [⟨.warning,
        "⚠️ Transcription is empty. Audio might be too quiet or unclear."⟩]) := by
    simp [transcribe_audio_alternative, dgStrictExtract, dgResp, e₂]
  unfold transcriptionFlow
  rw [hp, ha]
  rfl

/-- Witness for the amended C4 on a three-space and an empty transcript. -/
theorem claim_C4_witness :
    (∀ c ∈ ("   " : String).data, isPyWhitespace c) ∧
    transcriptionFlow (.response (dgResp 200 "b1" "   "))
        (.response (dgResp 200 "b2" "")) =
      ⟨none, true,
        [⟨.warning, "⚠️ Transcription is empty. Audio might be too quiet or unclear."⟩,
         bothFailedMsg]⟩ :=
  ⟨by decide, claim_C4 "b1" "b2" "   " "" (by decide) (by decide)⟩

/-- C5 counterexample: the alternative attempt's parameter bag is not
the same as the primary attempt's — the primary sends an explicit
`diarize=false` entry, the alternative sends no `diarize` entry at
all. -/
theorem claim_C5_counterexample :
    primaryParams ≠ alternativeParams ∧
    ("diarize", "false") ∈ primaryParams ∧
    (∀ p ∈ alternativeParams, p.1 ≠ "diarize") := by decide

/-- C5 (amended): the alternative attempt uses the same 120-second
timeout and exactly the primary attempt's options minus the explicit
`diarize=false` (speaker separation) entry; its transport differs by
sending an explicit `Content-Type` header (declared media type or the
`audio/mpeg` default) in addition to the shared authorization header. -/
theorem claim_C5 :
    alternativeParams = primaryParams.filter (fun p => p.1 ≠ "diarize") ∧
    alternativeTimeout = primaryTimeout ∧ primaryTimeout = 120 ∧
    (∀ key mt, alternativeHeaders key mt =
      primaryHeaders key ++ [("Content-Type", mt.getD "audio/mpeg")]) :=
  ⟨by decide, rfl, rfl, fun _ _ => rfl⟩

/-- Witness for the amended C5 at a concrete key and absent media type. -/
theorem claim_C5_witness :
    alternativeHeaders "k" none =
      primaryHeaders "k" ++ [("Content-Type", "audio/mpeg")] :=
  claim_C5.2.2.2 "k" none

/-- C6: a whitespace-only transcript is handled by both attempts
exactly like the empty transcript (for any status and body text); in
particular the primary attempt soft-fails on it and the alternative
attempt reports the no-speech condition. -/
theorem claim_C6 (text t : String) (h : ∀ c ∈ t.data, isPyWhitespace c) :
    (∀ status, transcribe_audio_primary (.response (dgResp status text t)) =
        transcribe_audio_primary (.response (dgResp status text "")) ∧
      transcribe_audio_alternative (.response (dgResp status text t)) =
        transcribe_audio_alternative (.response (dgResp status text ""))) ∧
    transcribe_audio_primary (.response (dgResp 200 text t)) = none ∧
    transcribe_audio_alternative (.response (dgResp 200 text t)) =
      (none, [⟨.warning,
        "⚠️ Transcription is empty. Audio might be too quiet or unclear."⟩]) := by
  have e := pyStrip_eq_empty_of_ws t h
  have e0 : pyStrip "" = "" := rfl
  refine ⟨fun status => ⟨?_, ?_⟩, ?_, ?_⟩ <;>
    simp [transcribe_audio_primary, transcribe_audio_alternative,
      dgStrictExtract, dgResp, e, e0]

/-- Witness for C6 on the three-space transcript. -/
theorem claim_C6_witness :
    (∀ c ∈ ("   " : String).data, isPyWhitespace c) ∧
    transcribe_audio_primary (.response (dgResp 200 "b" "   ")) = none ∧
    transcribe_audio_alternative (.response (dgResp 200 "b" "   ")) =
      (none, [⟨.warning,
        "⚠️ Transcription is empty. Audio might be too quiet or unclear."⟩]) ∧
    transcribe_audio_primary (.response (dgResp 404 "b" "   ")) =
      transcribe_audio_primary (.response (dgResp 404 "b" "")) := by
  have h := claim_C6 "b" "   " (by decide)
  exact ⟨by decide, h.2.1, h.2.2, (h.1 404).1⟩

/-- C7 counterexample: a small file whose extension `.aac` is not in
the allowed list is nevertheless accepted by the validator because its
declared MIME type `audio/wav` is allowed — the validator does not
reject every unsupported extension. -/
theorem claim_C7_counterexample :
    validate_audio_file ⟨"clip.aac", [0], some "audio/wav"⟩ = true ∧
    allowed_extensions.contains (pyLower (splitextExt "clip.aac")) = false ∧
    ([0] : List Nat).length ≤ 25 * 1024 * 1024 := by decide

/-- C7 (amended): the validator rejects every file over 25 MB; for
files within the limit it rejects exactly those whose declared MIME
type is not allowed AND whose extension is not allowed (either one
suffices to accept); a rejected file stops the handler before any
transcription attempt. -/
theorem claim_C7 (s : SessionState) (f : UploadedFile) (ta tb : Transport) :
    (f.content.length > 25 * 1024 * 1024 → validate_audio_file f = false) ∧
    (f.content.length ≤ 25 * 1024 * 1024 →
      (validate_audio_file f = true ↔
        (typeAllowed f.type = true ∨
         allowed_extensions.contains (pyLower (splitextExt f.name)) = true))) ∧
    (validate_audio_file f = false →
      handle_upload s f ta tb = ⟨s, false, true⟩) := by
  refine ⟨?_, ?_, ?_⟩
  · intro h
    simp [validate_audio_file, h]
  · intro h
    unfold validate_audio_file
    rw [if_neg (not_lt.mpr h)]
    by_cases h1 : typeAllowed f.type = true <;>
      by_cases h2 :
        allowed_extensions.contains (pyLower (splitextExt f.name)) = true <;>
      simp [h1, h2]
  · intro h
    simp [handle_upload, h]

/-- Witness for the amended C7: an oversized file is rejected, a
type-and-extension-unsupported file stops the handler before any
transcription, and a `.mp3` file within the limit is accepted. -/
theorem claim_C7_witness :
    validate_audio_file ⟨"a.mp3", List.replicate 26214401 0, none⟩ = false ∧
    handle_upload ⟨none, none⟩ ⟨"x.txt", [0], none⟩ (.raises "a") (.raises "b") =
      ⟨⟨none, none⟩, false, true⟩ ∧
    (validate_audio_file ⟨"y.mp3", [0], none⟩ = true ↔
      (typeAllowed (none : Option String) = true ∨
       allowed_extensions.contains (pyLower (splitextExt "y.mp3")) = true)) := by
  refine ⟨?_, ?_, ?_⟩
  · exact (claim_C7 ⟨none, none⟩ ⟨"a.mp3", List.replicate 26214401 0, none⟩
      (.raises "a") (.raises "b")).1
      (by simp only [List.length_replicate]; norm_num)
  · exact (claim_C7 ⟨none, none⟩ ⟨"x.txt", [0], none⟩
      (.raises "a") (.raises "b")).2.2 (by decide)
  · exact (claim_C7 ⟨none, none⟩ ⟨"y.mp3", [0], none⟩
      (.raises "a") (.raises "b")).2.1 (by decide)

/-- C8: when the stored history is longer than 5 messages (system
message plus four), the language model receives exactly the first
(system) message followed by the 4 most recent messages; otherwise it
receives the full history. -/
theorem claim_C8 (h : List ChatMsg) :
    (h.length > 5 →
      limited_history h = h.take 1 ++ (h.reverse.take 4).reverse) ∧
    (h.length ≤ 5 → limited_history h = h) := by
  constructor
  · intro hl
    unfold limited_history
    rw [if_pos hl, ← List.rtake_eq_reverse_take_reverse]
    rfl
  · intro hl
    unfold limited_history
    rw [if_neg (by omega)]

/-- Witness for C8 on a six-message history. -/
theorem claim_C8_witness :
    ([ChatMsg.system "s", .human "u1", .ai "a1", .human "u2", .ai "a2",
      .human "u3"] : List ChatMsg).length > 5 ∧
    limited_history [ChatMsg.system "s", .human "u1", .ai "a1", .human "u2",
        .ai "a2", .human "u3"] =
      [ChatMsg.system "s", .ai "a1", .human "u2", .ai "a2", .human "u3"] := by
  have h := (claim_C8 [ChatMsg.system "s", .human "u1", .ai "a1", .human "u2",
    .ai "a2", .human "u3"]).1 (by decide)
  refine ⟨by decide, ?_⟩
  rw [h]
  decide

/-- C9: a chat turn is atomic with respect to the history — the user
message is appended before the model call; if the call raises, the
just-appended user message is popped and the history is exactly what
it was before the turn; on success the turn appends exactly the user
message followed by the assistant reply. -/
theorem claim_C9 (history : List ChatMsg) (prompt : String)
    (llm : List ChatMsg → Except String String) :
    (∀ e, llm (limited_history (history ++ [ChatMsg.human prompt])) =
        .error e → chat_turn history prompt llm = (history, none)) ∧
    (∀ r, llm (limited_history (history ++ [ChatMsg.human prompt])) =
        .ok r → chat_turn history prompt llm =
          (history ++ [ChatMsg.human prompt, ChatMsg.ai r], some r)) := by
  constructor
  · intro e he
    simp only [chat_turn]
    rw [he, List.getLast?_concat]
    simp [List.dropLast_concat]
  · intro r hr
    simp only [chat_turn]
    rw [hr]
    simp

/-- Witness for C9 with an always-failing and an always-succeeding
model stub. -/
theorem claim_C9_witness :
    chat_turn [ChatMsg.system "s"] "q" (fun _ => Except.error "429") =
      ([ChatMsg.system "s"], none) ∧
    chat_turn [ChatMsg.system "s"] "q" (fun _ => Except.ok "fine") =
      ([ChatMsg.system "s", ChatMsg.human "q", ChatMsg.ai "fine"],
        some "fine") := by
  constructor
  · exact (claim_C9 [ChatMsg.system "s"] "q"
      (fun _ => Except.error "429")).1 "429" rfl
  · exact (claim_C9 [ChatMsg.system "s"] "q"
      (fun _ => Except.ok "fine")).2 "fine" rfl

/-- C10: the re-transcription decision is keyed solely on the file
name — with a cached transcript and a matching last-uploaded name, no
transcription is attempted and the session state (with its cached
transcript) is untouched, whatever the new file's bytes are. -/
theorem claim_C10 (t n : String) (bytes : List Nat) (ty : Option String)
    (ta tb : Transport)
    (hv : validate_audio_file ⟨n, bytes, ty⟩ = true) :
    needs_transcription ⟨some n, some t⟩ ⟨n, bytes, ty⟩ = false ∧
    handle_upload ⟨some n, some t⟩ ⟨n, bytes, ty⟩ ta tb =
      ⟨⟨some n, some t⟩, false, false⟩ := by
  have hn : needs_transcription ⟨some n, some t⟩ ⟨n, bytes, ty⟩ = false := by
    simp [needs_transcription, file_changed]
  refine ⟨hn, ?_⟩
  simp [handle_upload, hv, hn]

/-- Witness for C10: same name as the cached transcription, different
bytes — the handler attempts nothing and keeps the cached transcript. -/
theorem claim_C10_witness :
    validate_audio_file ⟨"a.mp3", [9, 9, 9], none⟩ = true ∧
    handle_upload ⟨some "a.mp3", some "hello"⟩ ⟨"a.mp3", [9, 9, 9], none⟩
        (.raises "x") (.raises "y") =
      ⟨⟨some "a.mp3", some "hello"⟩, false, false⟩ := by
  refine ⟨by decide, ?_⟩
  exact (claim_C10 "hello" "a.mp3" [9, 9, 9] none (.raises "x")
    (.raises "y") (by decide)).2
